import Mathlib

/-!
Verification of the reverprox-rs wire protocol core (crate `message`,
file src/message/src/lib.rs) as a shallow embedding in Lean 4.

Bytes are modelled as `Nat` values below 256, byte buffers as `List Nat`,
`u16`/`u32` as `Nat` with explicit reductions modulo 2^16 / 2^32 where the
Rust code converts, and `io::Result` as `Except IoError`.  `uuid::Uuid` is
modelled as its 16-byte representation (a `List Nat` of length 16), since
the crate only uses `Uuid::from_slice` and `Uuid::as_bytes`.
-/

namespace Reverprox

instance {ε α : Type} [DecidableEq ε] [DecidableEq α] : DecidableEq (Except ε α)
  | .ok a, .ok b => decidable_of_iff (a = b) (by simp)
  | .error a, .error b => decidable_of_iff (a = b) (by simp)
  | .ok _, .error _ => .isFalse (by simp)
  | .error _, .ok _ => .isFalse (by simp)

/-- Mirrors `io::ErrorKind` restricted to the kinds the crate constructs. -/
inductive ErrorKind where
  | unexpectedEof
  | invalidData
  | unsupported
deriving DecidableEq, Repr

/-- Mirrors `io::Error` as constructed by `io::Error::new(kind, msg)`. -/
structure IoError where
  kind : ErrorKind
  message : String
deriving DecidableEq, Repr

/-- `pub const CHUNK_SIZE: usize = 512;` -/
def CHUNK_SIZE : Nat := 512

/-- `pub const MAGIC_BYTE: u8 = 0xAA;` -/
def MAGIC_BYTE : Nat := 0xAA

/-- `pub const HEADER_LENGTH: usize = 39;` -/
def HEADER_LENGTH : Nat := 39

/-- Mirrors `enum MessageType { Initial = 0x1, Data = 0x2, Close = 0x3, Ping = 0x4 }`. -/
inductive MessageType where
  | Initial
  | Data
  | Close
  | Ping
deriving DecidableEq, Repr

/-- The `#[repr(u8)]` discriminant of a `MessageType`, i.e. `self.message_type as u8`. -/
def MessageType.toByte : MessageType → Nat
  | .Initial => 0x1
  | .Data => 0x2
  | .Close => 0x3
  | .Ping => 0x4

/-- Mirrors `enum ProtocolVersion { V1 = 0x1 }`. -/
inductive ProtocolVersion where
  | V1
deriving DecidableEq, Repr

/-- The `#[repr(u8)]` discriminant of a `ProtocolVersion`, i.e. `self.version as u8`. -/
def ProtocolVersion.toByte : ProtocolVersion → Nat
  | .V1 => 0x1

/-- Mirrors `struct Message`; the two `Uuid` fields are their 16-byte contents. -/
structure Message where
  magic : Nat
  version : ProtocolVersion
  message_type : MessageType
  connection_id : List Nat
  message_id : List Nat
  length : Nat
  payload : List Nat
deriving DecidableEq, Repr

/-- `u32::to_be_bytes`: the four big-endian bytes of a `u32` value. -/
def u32ToBeBytes (n : Nat) : List Nat :=
  [n / 16777216 % 256, n / 65536 % 256, n / 256 % 256, n % 256]

/-- `u32::from_be_bytes` applied to the 4-byte slice `msg[35..39].try_into().unwrap()`.
The wildcard arm is unreachable whenever the list has exactly 4 elements, which the
`HEADER_LENGTH` guard in `Message::decode` ensures (the Rust `unwrap` cannot panic). -/
def u32FromBeBytes : List Nat → Nat
  | [b0, b1, b2, b3] => ((b0 * 256 + b1) * 256 + b2) * 256 + b3
  | _ => 0

/-- `u16::to_be_bytes`: the two big-endian bytes of a `u16` value. -/
def u16ToBeBytes (n : Nat) : List Nat :=
  [n / 256 % 256, n % 256]

/-- `u16::from_be_bytes` applied to a 2-byte slice; wildcard arm unreachable under
the length guard in `InitializationMessage::decode`. -/
def u16FromBeBytes : List Nat → Nat
  | [b0, b1] => b0 * 256 + b1
  | _ => 0

/-- `Uuid::from_slice`: succeeds exactly when given 16 bytes, returning the uuid
whose byte content is the slice; fails (with a length error) otherwise. -/
def uuidFromSlice (l : List Nat) : Option (List Nat) :=
  if l.length = 16 then some l else none

/-- The `match msg[1] { 0x1 => ProtocolVersion::V1, _ => Err(...) }` block of
`Message::decode` (the error text in the source is the literal string shown). -/
def decodeVersion (b : Nat) : Except IoError ProtocolVersion :=
  match b with
  | 0x1 => .ok .V1
  | _ => .error ⟨.invalidData, "Unknown message type"⟩

/-- The `match msg[2] { 0x1 => Initial, 0x2 => Data, 0x3 => Close, 0x4 => Ping, _ => Err(...) }`
block of `Message::decode`. -/
def decodeType (b : Nat) : Except IoError MessageType :=
  match b with
  | 0x1 => .ok .Initial
  | 0x2 => .ok .Data
  | 0x3 => .ok .Close
  | 0x4 => .ok .Ping
  | _ => .error ⟨.invalidData, "Unknown message type"⟩

/-- `u32::from_be_bytes(msg[35..39].try_into().unwrap())`: the length field a buffer
declares in its header. -/
def declaredLength (msg : List Nat) : Nat :=
  u32FromBeBytes ((msg.drop 35).take 4)

/-- `Message::encode`: pushes magic, version, type, the 16 connection-id bytes,
the 16 message-id bytes, the 4 big-endian length bytes, then the payload. -/
def Message.encode (m : Message) : List Nat :=
  [m.magic, m.version.toByte, m.message_type.toByte]
    ++ m.connection_id ++ m.message_id ++ u32ToBeBytes m.length ++ m.payload

/-- `Message::decode`. -/
def Message.decode (msg : List Nat) : Except IoError Message :=
  if msg.length < HEADER_LENGTH then
    .error ⟨.unexpectedEof, "Headers are incomplete"⟩
  else
    match decodeVersion (msg.getD 1 0) with
    | .error e => .error e
    | .ok version =>
      match decodeType (msg.getD 2 0) with
      | .error e => .error e
      | .ok message_type =>
        match uuidFromSlice ((msg.drop 3).take 16) with
        | none => .error ⟨.invalidData, "invalid uuid length"⟩
        | some connection_id =>
          match uuidFromSlice ((msg.drop 19).take 16) with
          | none => .error ⟨.invalidData, "invalid uuid length"⟩
          | some message_id =>
            if msg.length < HEADER_LENGTH + declaredLength msg then
              .error ⟨.unexpectedEof, "Payload incomplete"⟩
            else
              .ok { magic := msg.getD 0 0
                    version := version
                    message_type := message_type
                    connection_id := connection_id
                    message_id := message_id
                    length := declaredLength msg
                    payload := (msg.drop HEADER_LENGTH).take (declaredLength msg) }

/-- `Message::new`.  Modelled from the spec: `msg_utils::generate_uuid`
(file src/message/src/utils.rs, absent from the sources) returns a freshly
generated 16-byte identifier; it is modelled as the explicit `message_id`
parameter ranging over all 16-byte values.  `payload.len() as u32` is the
payload length reduced modulo 2^32. -/
def Message.new (msg_type : MessageType) (connection_id : List Nat)
    (message_id : List Nat) (payload : List Nat) : Message :=
  { magic := MAGIC_BYTE
    version := .V1
    message_type := msg_type
    connection_id := connection_id
    message_id := message_id
    length := payload.length % 4294967296
    payload := payload }

/-- The invariants every in-memory Rust `Message` satisfies by typing
(`magic : u8`, `Uuid` is 16 bytes, `length : u32`) together with the validity
condition of the spec: the length field equals the payload byte count, as
`Message::new` establishes. -/
def Message.Valid (m : Message) : Prop :=
  m.magic < 256
    ∧ m.connection_id.length = 16 ∧ (∀ b ∈ m.connection_id, b < 256)
    ∧ m.message_id.length = 16 ∧ (∀ b ∈ m.message_id, b < 256)
    ∧ (∀ b ∈ m.payload, b < 256)
    ∧ m.length = m.payload.length
    ∧ m.length < 4294967296

instance (m : Message) : Decidable m.Valid := by
  unfold Message.Valid; infer_instance

/-- A decode outcome counts as Incomplete when it is an error of kind
`UnexpectedEof` (the kind both "Headers are incomplete" and
"Payload incomplete" carry). -/
def isIncomplete (r : Except IoError Message) : Bool :=
  match r with
  | .error e => e.kind = ErrorKind.unexpectedEof
  | .ok _ => false

/-- `std::net::Ipv4Addr`, stored as its 32-bit value (`Ipv4Addr::from_bits`). -/
structure Ipv4Addr where
  bits : Nat
deriving DecidableEq, Repr

/-- `Ipv4Addr::from_bits`. -/
def Ipv4Addr.from_bits (n : Nat) : Ipv4Addr := ⟨n⟩

/-- `Ipv4Addr::octets`: the four bytes of the address in network order. -/
def Ipv4Addr.octets (a : Ipv4Addr) : List Nat := u32ToBeBytes a.bits

/-- `std::net::IpAddr` (the V6 payload is irrelevant to the crate and left out). -/
inductive IpAddr where
  | V4 (addr : Ipv4Addr)
  | V6
deriving DecidableEq, Repr

/-- `std::net::SocketAddr` restricted to what the crate uses: `ip()` and `port()`. -/
structure SocketAddr where
  ip : IpAddr
  port : Nat
deriving DecidableEq, Repr

/-- `SocketAddr::is_ipv4`. -/
def SocketAddr.is_ipv4 (a : SocketAddr) : Bool :=
  match a.ip with
  | .V4 _ => true
  | .V6 => false

/-- Mirrors `struct InitializationMessage`. -/
structure InitializationMessage where
  client_ip : Ipv4Addr
  client_port : Nat
  proxy_port : Nat
  proxy_host : Ipv4Addr
deriving DecidableEq, Repr

/-- `InitializationMessage::new`.  The second wildcard arm models the two
`unreachable!()` match arms of the source, which cannot run because the
`is_ipv4` guard has already returned the error. -/
def InitializationMessage.new (addr proxy_addr : SocketAddr) :
    Except IoError InitializationMessage :=
  if !addr.is_ipv4 || !proxy_addr.is_ipv4 then
    .error ⟨.unsupported, "IPv6 is not supported"⟩
  else
    match addr.ip, proxy_addr.ip with
    | .V4 ipv4, .V4 proxy_ipv4 =>
        .ok { client_ip := ipv4
              client_port := addr.port
              proxy_port := proxy_addr.port
              proxy_host := proxy_ipv4 }
    | _, _ => .error ⟨.unsupported, "unreachable"⟩

/-- `InitializationMessage::encode`: client_port, proxy_port (big-endian u16),
then the client_ip and proxy_host octets. -/
def InitializationMessage.encode (p : InitializationMessage) : List Nat :=
  u16ToBeBytes p.client_port ++ u16ToBeBytes p.proxy_port
    ++ p.client_ip.octets ++ p.proxy_host.octets

/-- `InitializationMessage::decode`. -/
def InitializationMessage.decode (msg : List Nat) :
    Except IoError InitializationMessage :=
  if msg.length < 12 then
    .error ⟨.unexpectedEof, "Initial message is incorrect"⟩
  else
    .ok { client_port := u16FromBeBytes ((msg.drop 0).take 2)
          proxy_port := u16FromBeBytes ((msg.drop 2).take 2)
          client_ip := Ipv4Addr.from_bits (u32FromBeBytes ((msg.drop 4).take 4))
          proxy_host := Ipv4Addr.from_bits (u32FromBeBytes ((msg.drop 8).take 4)) }

/-- The invariants a Rust `InitializationMessage` satisfies by typing:
the ports are `u16` and the addresses are 32-bit quantities. -/
def InitializationMessage.Valid (p : InitializationMessage) : Prop :=
  p.client_port < 65536 ∧ p.proxy_port < 65536
    ∧ p.client_ip.bits < 4294967296 ∧ p.proxy_host.bits < 4294967296

instance (p : InitializationMessage) : Decidable p.Valid := by
  unfold InitializationMessage.Valid; infer_instance

/-! ### Arithmetic and list helper lemmas -/

lemma u32_roundtrip (n : Nat) (h : n < 4294967296) :
    u32FromBeBytes (u32ToBeBytes n) = n := by
  simp only [u32ToBeBytes, u32FromBeBytes]
  omega

lemma u16_roundtrip (n : Nat) (h : n < 65536) :
    u16FromBeBytes (u16ToBeBytes n) = n := by
  simp only [u16ToBeBytes, u16FromBeBytes]
  omega

lemma u32ToBeBytes_length (n : Nat) : (u32ToBeBytes n).length = 4 := by
  simp [u32ToBeBytes]

lemma getD_take_of_lt (l : List Nat) (n i d : Nat) (h : i < n) :
    (l.take n).getD i d = l.getD i d := by
  simp [List.getD_eq_getElem?_getD, List.getElem?_take_of_lt h]

lemma slice16_length (msg : List Nat) (a : Nat) (h : a + 16 ≤ msg.length) :
    ((msg.drop a).take 16).length = 16 := by
  simp only [List.length_take, List.length_drop]
  omega

lemma uuidFromSlice_of_length (l : List Nat) (h : l.length = 16) :
    uuidFromSlice l = some l := by
  simp [uuidFromSlice, h]

/-! ### Facts about the version and type match blocks -/

lemma decodeVersion_one : decodeVersion 1 = .ok .V1 := rfl

lemma decodeVersion_of_ne (b : Nat) (h : b ≠ 1) :
    decodeVersion b = .error ⟨.invalidData, "Unknown message type"⟩ := by
  unfold decodeVersion
  split
  · omega
  · rfl

lemma decodeType_of_ne (b : Nat) (h1 : b ≠ 1) (h2 : b ≠ 2) (h3 : b ≠ 3) (h4 : b ≠ 4) :
    decodeType b = .error ⟨.invalidData, "Unknown message type"⟩ := by
  unfold decodeType
  split
  · omega
  · omega
  · omega
  · omega
  · rfl

lemma decodeType_toByte (t : MessageType) : decodeType t.toByte = .ok t := by
  cases t <;> rfl

/-! ### Branch lemmas for `Message.decode` -/

lemma decode_header_incomplete (msg : List Nat) (h : msg.length < 39) :
    Message.decode msg = .error ⟨.unexpectedEof, "Headers are incomplete"⟩ := by
  unfold Message.decode
  rw [if_pos (by simpa [HEADER_LENGTH] using h)]

lemma decode_version_error (msg : List Nat) (e : IoError) (h39 : 39 ≤ msg.length)
    (hv : decodeVersion (msg.getD 1 0) = .error e) :
    Message.decode msg = .error e := by
  unfold Message.decode
  rw [if_neg (by simp [HEADER_LENGTH]; omega), hv]

lemma decode_type_error (msg : List Nat) (ver : ProtocolVersion) (e : IoError)
    (h39 : 39 ≤ msg.length)
    (hv : decodeVersion (msg.getD 1 0) = .ok ver)
    (ht : decodeType (msg.getD 2 0) = .error e) :
    Message.decode msg = .error e := by
  unfold Message.decode
  rw [if_neg (by simp [HEADER_LENGTH]; omega), hv, ht]

lemma decode_payload_incomplete (msg : List Nat) (ver : ProtocolVersion) (mt : MessageType)
    (h39 : 39 ≤ msg.length)
    (hv : decodeVersion (msg.getD 1 0) = .ok ver)
    (ht : decodeType (msg.getD 2 0) = .ok mt)
    (hpl : msg.length < 39 + declaredLength msg) :
    Message.decode msg = .error ⟨.unexpectedEof, "Payload incomplete"⟩ := by
  have h3 := uuidFromSlice_of_length _ (slice16_length msg 3 (by omega))
  have h19 := uuidFromSlice_of_length _ (slice16_length msg 19 (by omega))
  unfold Message.decode
  rw [if_neg (by simp [HEADER_LENGTH]; omega), hv, ht, h3, h19]
  simp only [HEADER_LENGTH]
  rw [if_pos hpl]

lemma decode_ok (msg : List Nat) (ver : ProtocolVersion) (mt : MessageType)
    (h39 : 39 ≤ msg.length)
    (hv : decodeVersion (msg.getD 1 0) = .ok ver)
    (ht : decodeType (msg.getD 2 0) = .ok mt)
    (hpl : 39 + declaredLength msg ≤ msg.length) :
    Message.decode msg = .ok
      { magic := msg.getD 0 0
        version := ver
        message_type := mt
        connection_id := (msg.drop 3).take 16
        message_id := (msg.drop 19).take 16
        length := declaredLength msg
        payload := (msg.drop 39).take (declaredLength msg) } := by
  have h3 := uuidFromSlice_of_length _ (slice16_length msg 3 (by omega))
  have h19 := uuidFromSlice_of_length _ (slice16_length msg 19 (by omega))
  unfold Message.decode
  rw [if_neg (by simp [HEADER_LENGTH]; omega), hv, ht, h3, h19]
  simp only [HEADER_LENGTH]
  rw [if_neg (by omega)]

/-! ### Structure of an encoded frame -/

lemma encode_cons (m : Message) :
    Message.encode m = m.magic :: m.version.toByte :: m.message_type.toByte ::
      (m.connection_id ++ (m.message_id ++ (u32ToBeBytes m.length ++ m.payload))) := by
  simp [Message.encode, List.append_assoc]

lemma encode_length (m : Message)
    (hc : m.connection_id.length = 16) (hm : m.message_id.length = 16) :
    (Message.encode m).length = 39 + m.payload.length := by
  simp [Message.encode, u32ToBeBytes, hc, hm]
  omega

lemma encode_getD0 (m : Message) : (Message.encode m).getD 0 0 = m.magic := by
  rw [encode_cons]; rfl

lemma encode_getD1 (m : Message) : (Message.encode m).getD 1 0 = m.version.toByte := by
  rw [encode_cons]; rfl

lemma encode_getD2 (m : Message) : (Message.encode m).getD 2 0 = m.message_type.toByte := by
  rw [encode_cons]; rfl

lemma encode_drop3 (m : Message) :
    (Message.encode m).drop 3
      = m.connection_id ++ (m.message_id ++ (u32ToBeBytes m.length ++ m.payload)) := by
  rw [encode_cons]; rfl

lemma encode_drop19 (m : Message) (hc : m.connection_id.length = 16) :
    (Message.encode m).drop 19 = m.message_id ++ (u32ToBeBytes m.length ++ m.payload) := by
  rw [show (19 : Nat) = 3 + 16 from rfl, ← List.drop_drop, encode_drop3,
    List.drop_left' hc]

lemma encode_drop35 (m : Message)
    (hc : m.connection_id.length = 16) (hm : m.message_id.length = 16) :
    (Message.encode m).drop 35 = u32ToBeBytes m.length ++ m.payload := by
  rw [show (35 : Nat) = 19 + 16 from rfl, ← List.drop_drop, encode_drop19 m hc,
    List.drop_left' hm]

lemma encode_drop39 (m : Message)
    (hc : m.connection_id.length = 16) (hm : m.message_id.length = 16) :
    (Message.encode m).drop 39 = m.payload := by
  rw [show (39 : Nat) = 35 + 4 from rfl, ← List.drop_drop, encode_drop35 m hc hm,
    List.drop_left' (u32ToBeBytes_length m.length)]

lemma encode_slice_cid (m : Message) (hc : m.connection_id.length = 16) :
    ((Message.encode m).drop 3).take 16 = m.connection_id := by
  rw [encode_drop3]
  exact List.take_left' hc

lemma encode_slice_mid (m : Message)
    (hc : m.connection_id.length = 16) (hm : m.message_id.length = 16) :
    ((Message.encode m).drop 19).take 16 = m.message_id := by
  rw [encode_drop19 m hc]
  exact List.take_left' hm

lemma declaredLength_encode (m : Message)
    (hc : m.connection_id.length = 16) (hm : m.message_id.length = 16)
    (hl : m.length < 4294967296) :
    declaredLength (Message.encode m) = m.length := by
  unfold declaredLength
  rw [encode_drop35 m hc hm, List.take_left' (u32ToBeBytes_length m.length),
    u32_roundtrip m.length hl]

/-- The shared round-trip fact: decoding an encoded valid message returns it. -/
lemma decode_encode_of_valid (m : Message) (h : m.Valid) :
    Message.decode (Message.encode m) = .ok m := by
  obtain ⟨hmag, hc, _, hm, _, _, hlen, hlt⟩ := h
  have hLen := encode_length m hc hm
  have hDecl := declaredLength_encode m hc hm hlt
  rw [decode_ok (Message.encode m) m.version m.message_type
      (by omega)
      (by rw [encode_getD1]; cases m.version; rfl)
      (by rw [encode_getD2]; exact decodeType_toByte m.message_type)
      (by omega)]
  rw [encode_getD0, encode_slice_cid m hc, encode_slice_mid m hc hm, hDecl,
    encode_drop39 m hc hm, hlen, List.take_length, ← hlen]

/-! ### Prefixes of an encoded frame -/

lemma declaredLength_take (msg : List Nat) (k : Nat) (h : 39 ≤ k) :
    declaredLength (msg.take k) = declaredLength msg := by
  unfold declaredLength
  rw [List.drop_take, List.take_take, Nat.min_eq_left (by omega)]

lemma decode_take_incomplete (m : Message) (h : m.Valid) (k : Nat)
    (hk : k < (Message.encode m).length) :
    isIncomplete (Message.decode ((Message.encode m).take k)) = true := by
  obtain ⟨hmag, hc, _, hm, _, _, hlen, hlt⟩ := h
  have hLen := encode_length m hc hm
  by_cases h39 : k < 39
  · rw [decode_header_incomplete _ (by simp [List.length_take]; omega)]
    rfl
  · have hTkLen : ((Message.encode m).take k).length = k := by
      simp [List.length_take]
      omega
    rw [decode_payload_incomplete ((Message.encode m).take k) m.version m.message_type
        (by omega)
        (by rw [getD_take_of_lt _ _ _ _ (by omega), encode_getD1]; cases m.version; rfl)
        (by rw [getD_take_of_lt _ _ _ _ (by omega), encode_getD2]
            exact decodeType_toByte m.message_type)
        (by rw [hTkLen, declaredLength_take _ _ (by omega),
              declaredLength_encode m hc hm hlt]
            omega)]
    rfl

/-! ### Error-message inversion for the version and type blocks -/

lemma decodeVersion_error_message (b : Nat) (e : IoError)
    (h : decodeVersion b = .error e) : e = ⟨.invalidData, "Unknown message type"⟩ := by
  unfold decodeVersion at h
  split at h <;> simp_all

lemma decodeType_error_message (b : Nat) (e : IoError)
    (h : decodeType b = .error e) : e = ⟨.invalidData, "Unknown message type"⟩ := by
  unfold decodeType at h
  split at h <;> simp_all

/-! ### Structure of an encoded handshake payload -/

lemma u16ToBeBytes_length (n : Nat) : (u16ToBeBytes n).length = 2 := by
  simp [u16ToBeBytes]

lemma init_encode_eq (p : InitializationMessage) :
    InitializationMessage.encode p
      = u16ToBeBytes p.client_port ++ (u16ToBeBytes p.proxy_port
          ++ (u32ToBeBytes p.client_ip.bits ++ u32ToBeBytes p.proxy_host.bits)) := by
  simp [InitializationMessage.encode, Ipv4Addr.octets, List.append_assoc]

lemma init_encode_length (p : InitializationMessage) :
    (InitializationMessage.encode p).length = 12 := by
  simp [InitializationMessage.encode, u16ToBeBytes, u32ToBeBytes, Ipv4Addr.octets]

lemma init_slice0 (p : InitializationMessage) :
    ((InitializationMessage.encode p).drop 0).take 2 = u16ToBeBytes p.client_port := by
  rw [List.drop_zero, init_encode_eq]
  exact List.take_left' (u16ToBeBytes_length _)

lemma init_drop2 (p : InitializationMessage) :
    (InitializationMessage.encode p).drop 2
      = u16ToBeBytes p.proxy_port ++ (u32ToBeBytes p.client_ip.bits
          ++ u32ToBeBytes p.proxy_host.bits) := by
  rw [init_encode_eq]
  exact List.drop_left' (u16ToBeBytes_length _)

lemma init_slice2 (p : InitializationMessage) :
    ((InitializationMessage.encode p).drop 2).take 2 = u16ToBeBytes p.proxy_port := by
  rw [init_drop2]
  exact List.take_left' (u16ToBeBytes_length _)

lemma init_drop4 (p : InitializationMessage) :
    (InitializationMessage.encode p).drop 4
      = u32ToBeBytes p.client_ip.bits ++ u32ToBeBytes p.proxy_host.bits := by
  rw [show (4 : Nat) = 2 + 2 from rfl, ← List.drop_drop, init_drop2,
    List.drop_left' (u16ToBeBytes_length _)]

lemma init_slice4 (p : InitializationMessage) :
    ((InitializationMessage.encode p).drop 4).take 4 = u32ToBeBytes p.client_ip.bits := by
  rw [init_drop4]
  exact List.take_left' (u32ToBeBytes_length _)

lemma init_drop8 (p : InitializationMessage) :
    (InitializationMessage.encode p).drop 8 = u32ToBeBytes p.proxy_host.bits := by
  rw [show (8 : Nat) = 4 + 4 from rfl, ← List.drop_drop, init_drop4,
    List.drop_left' (u32ToBeBytes_length _)]

lemma init_decode_short (msg : List Nat) (h : msg.length < 12) :
    InitializationMessage.decode msg
      = .error ⟨.unexpectedEof, "Initial message is incorrect"⟩ := by
  unfold InitializationMessage.decode
  rw [if_pos h]

lemma init_decode_encode_of_valid (p : InitializationMessage) (h : p.Valid) :
    InitializationMessage.decode (InitializationMessage.encode p) = .ok p := by
  obtain ⟨hcp, hpp, hci, hph⟩ := h
  unfold InitializationMessage.decode
  rw [if_neg (by rw [init_encode_length]; omega)]
  rw [init_slice0, init_slice2, init_slice4, init_drop8,
    List.take_of_length_le (by rw [u32ToBeBytes_length]),
    u16_roundtrip _ hcp, u16_roundtrip _ hpp, u32_roundtrip _ hci, u32_roundtrip _ hph]
  rfl

/-! ### Claim theorems -/

/-- C1: for every valid `Message` value (length field equal to the payload byte
count, together with the Rust typing invariants), `Message::decode` applied to
`Message::encode m` succeeds and yields a `Message` equal to `m` in every field. -/
theorem c1_message_roundtrip (m : Message) (h : m.Valid) :
    Message.decode (Message.encode m) = .ok m :=
  decode_encode_of_valid m h

theorem c1_message_roundtrip_witness :
    Message.Valid ⟨170, .V1, .Data, List.replicate 16 17, List.replicate 16 34, 4,
      [112, 105, 110, 103]⟩
    ∧ Message.decode (Message.encode ⟨170, .V1, .Data, List.replicate 16 17,
        List.replicate 16 34, 4, [112, 105, 110, 103]⟩)
      = .ok ⟨170, .V1, .Data, List.replicate 16 17, List.replicate 16 34, 4,
        [112, 105, 110, 103]⟩ :=
  ⟨by decide, c1_message_roundtrip _ (by decide)⟩

/-- C2 counterexample: a 39-byte buffer whose first byte is 0 (not the magic
0xAA) is not rejected: `Message::decode` returns a `Message`, copying the
first byte into the `magic` field unchecked. -/
theorem c2_counterexample :
    ([0, 1, 2] ++ List.replicate 32 17 ++ [0, 0, 0, 0] : List Nat).getD 0 0 ≠ MAGIC_BYTE
    ∧ 39 ≤ ([0, 1, 2] ++ List.replicate 32 17 ++ [0, 0, 0, 0] : List Nat).length
    ∧ Message.decode ([0, 1, 2] ++ List.replicate 32 17 ++ [0, 0, 0, 0])
      = .ok ⟨0, .V1, .Data, List.replicate 16 17, List.replicate 16 17, 0, []⟩ := by
  decide

/-- C2 amended: `Message::decode` does not validate the magic byte.  Any buffer
of at least 39 bytes with a valid version byte, a valid type byte and enough
payload bytes decodes successfully, whatever its first byte is, and the first
byte is stored verbatim in the returned `magic` field. -/
theorem c2_magic_not_validated (msg : List Nat) (h39 : 39 ≤ msg.length)
    (hv : msg.getD 1 0 = 1)
    (ht : msg.getD 2 0 = 1 ∨ msg.getD 2 0 = 2 ∨ msg.getD 2 0 = 3 ∨ msg.getD 2 0 = 4)
    (hpl : 39 + declaredLength msg ≤ msg.length) :
    ∃ m, Message.decode msg = .ok m ∧ m.magic = msg.getD 0 0 := by
  obtain ⟨mt, hmt⟩ : ∃ mt, decodeType (msg.getD 2 0) = .ok mt := by
    rcases ht with h | h | h | h <;> rw [h] <;> exact ⟨_, rfl⟩
  exact ⟨_, decode_ok msg .V1 mt h39 (by rw [hv]; rfl) hmt hpl, rfl⟩

theorem c2_magic_not_validated_witness :
    ∃ m, Message.decode ([0, 1, 2] ++ List.replicate 32 17 ++ [0, 0, 0, 0]) = .ok m
      ∧ m.magic = ([0, 1, 2] ++ List.replicate 32 17 ++ [0, 0, 0, 0] : List Nat).getD 0 0 :=
  c2_magic_not_validated _ (by decide) (by decide) (by decide) (by decide)

/-- C3 counterexample: a 39-byte buffer whose declared length (5) exceeds the
available payload bytes (0) but whose version byte is invalid (0x02) is
rejected with the fatal `InvalidData` error, not with Incomplete: the version
check runs before the payload-length check. -/
theorem c3_counterexample :
    39 ≤ ([170, 2, 2] ++ List.replicate 32 0 ++ [0, 0, 0, 5] : List Nat).length
    ∧ ([170, 2, 2] ++ List.replicate 32 0 ++ [0, 0, 0, 5] : List Nat).length
        < 39 + declaredLength ([170, 2, 2] ++ List.replicate 32 0 ++ [0, 0, 0, 5])
    ∧ Message.decode ([170, 2, 2] ++ List.replicate 32 0 ++ [0, 0, 0, 5])
        = .error ⟨.invalidData, "Unknown message type"⟩
    ∧ isIncomplete (Message.decode ([170, 2, 2] ++ List.replicate 32 0 ++ [0, 0, 0, 5]))
        = false := by
  decide

/-- C3 amended: every buffer shorter than 39 bytes decodes to Incomplete
(header); every buffer of at least 39 bytes with valid version and type bytes
whose declared length exceeds the available payload bytes decodes to Incomplete
(payload), not to a fatal error; and for every valid message, decode on every
strict prefix of the encoded frame is Incomplete while decode on the full frame
succeeds. -/
theorem c3_incompleteness :
    (∀ msg : List Nat, msg.length < 39 →
      Message.decode msg = .error ⟨.unexpectedEof, "Headers are incomplete"⟩)
    ∧ (∀ msg : List Nat, 39 ≤ msg.length → msg.getD 1 0 = 1 →
        (msg.getD 2 0 = 1 ∨ msg.getD 2 0 = 2 ∨ msg.getD 2 0 = 3 ∨ msg.getD 2 0 = 4) →
        msg.length < 39 + declaredLength msg →
        Message.decode msg = .error ⟨.unexpectedEof, "Payload incomplete"⟩)
    ∧ (∀ m : Message, m.Valid →
        (∀ k, k < (Message.encode m).length →
          isIncomplete (Message.decode ((Message.encode m).take k)) = true)
        ∧ Message.decode (Message.encode m) = .ok m) := by
  refine ⟨fun msg h => decode_header_incomplete msg h, ?_, ?_⟩
  · intro msg h39 hv ht hpl
    obtain ⟨mt, hmt⟩ : ∃ mt, decodeType (msg.getD 2 0) = .ok mt := by
      rcases ht with h | h | h | h <;> rw [h] <;> exact ⟨_, rfl⟩
    exact decode_payload_incomplete msg .V1 mt h39 (by rw [hv]; rfl) hmt hpl
  · intro m hm
    exact ⟨fun k hk => decode_take_incomplete m hm k hk, decode_encode_of_valid m hm⟩

theorem c3_incompleteness_witness :
    Message.decode ([] : List Nat) = .error ⟨.unexpectedEof, "Headers are incomplete"⟩
    ∧ isIncomplete (Message.decode ((Message.encode ⟨170, .V1, .Data,
        List.replicate 16 17, List.replicate 16 34, 4, [112, 105, 110, 103]⟩).take 40))
      = true :=
  ⟨c3_incompleteness.1 [] (by decide),
   (c3_incompleteness.2.2 _ (by decide)).1 40 (by decide)⟩

/-- C5 counterexample: the version-byte failure and the type-byte failure
produce the identical `io::Error` value (kind `InvalidData`, message
"Unknown message type"), so the InvalidVersion case is not distinguishable
from the InvalidType case. -/
theorem c5_counterexample :
    Message.decode ([170, 2, 2] ++ List.replicate 32 0 ++ [0, 0, 0, 0])
      = .error ⟨.invalidData, "Unknown message type"⟩
    ∧ Message.decode ([170, 1, 9] ++ List.replicate 32 0 ++ [0, 0, 0, 0])
      = .error ⟨.invalidData, "Unknown message type"⟩ := by
  decide

/-- C5 amended: for every buffer of at least 39 bytes whose version byte is not
0x01, decode fails with the `InvalidData` error carrying the message
"Unknown message type" — an error identical to the invalid-type error, but
distinguishable from the Incomplete cases, whose kind is `UnexpectedEof`. -/
theorem c5_version_rejected (msg : List Nat) (h39 : 39 ≤ msg.length)
    (hv : msg.getD 1 0 ≠ 1) :
    Message.decode msg = .error ⟨.invalidData, "Unknown message type"⟩
    ∧ (⟨.invalidData, "Unknown message type"⟩ : IoError).kind ≠ ErrorKind.unexpectedEof :=
  ⟨decode_version_error msg _ h39 (decodeVersion_of_ne _ hv), by decide⟩

theorem c5_version_rejected_witness :
    Message.decode ([170, 2, 2] ++ List.replicate 32 5 ++ [0, 0, 0, 0])
      = .error ⟨.invalidData, "Unknown message type"⟩
    ∧ (⟨.invalidData, "Unknown message type"⟩ : IoError).kind ≠ ErrorKind.unexpectedEof :=
  c5_version_rejected _ (by decide) (by decide)

/-- C6: for every buffer of at least 39 bytes with a valid version byte whose
type byte is none of 0x01..0x04, decode fails with the invalid-type error; and
the four known values map to Initial, Data, Close and Ping respectively. -/
theorem c6_type_validation :
    (∀ msg : List Nat, 39 ≤ msg.length → msg.getD 1 0 = 1 →
      msg.getD 2 0 ≠ 1 → msg.getD 2 0 ≠ 2 → msg.getD 2 0 ≠ 3 → msg.getD 2 0 ≠ 4 →
      Message.decode msg = .error ⟨.invalidData, "Unknown message type"⟩)
    ∧ decodeType 1 = .ok .Initial ∧ decodeType 2 = .ok .Data
    ∧ decodeType 3 = .ok .Close ∧ decodeType 4 = .ok .Ping := by
  refine ⟨?_, rfl, rfl, rfl, rfl⟩
  intro msg h39 hv h1 h2 h3 h4
  exact decode_type_error msg .V1 _ h39 (by rw [hv]; rfl) (decodeType_of_ne _ h1 h2 h3 h4)

theorem c6_type_validation_witness :
    Message.decode ([170, 1, 9] ++ List.replicate 32 7 ++ [0, 0, 0, 0])
      = .error ⟨.invalidData, "Unknown message type"⟩ :=
  c6_type_validation.1 _ (by decide) (by decide) (by decide) (by decide) (by decide)
    (by decide)

/-- C7: `Message::encode` produces exactly 39 + length bytes, laid out as magic,
version, type, the 16 connection-id bytes, the 16 message-id bytes, the 4-byte
big-endian length, then the payload verbatim; in particular a `Data` message
built by `Message::new` with connection id bytes all 0x11 and payload "ping"
encodes to 43 bytes with bytes 35..38 equal to 00 00 00 04 and the last 4 bytes
equal to 70 69 6e 67, for every generated message id. -/
theorem c7_encode_layout :
    (∀ m : Message, m.Valid →
      (Message.encode m).length = 39 + m.length
      ∧ (Message.encode m).take 3 = [m.magic, m.version.toByte, m.message_type.toByte]
      ∧ ((Message.encode m).drop 3).take 16 = m.connection_id
      ∧ ((Message.encode m).drop 19).take 16 = m.message_id
      ∧ ((Message.encode m).drop 35).take 4 = u32ToBeBytes m.length
      ∧ (Message.encode m).drop 39 = m.payload)
    ∧ (∀ message_id : List Nat, message_id.length = 16 →
        (Message.encode (Message.new .Data (List.replicate 16 17) message_id
            [112, 105, 110, 103])).length = 43
        ∧ ((Message.encode (Message.new .Data (List.replicate 16 17) message_id
            [112, 105, 110, 103])).drop 35).take 4 = [0, 0, 0, 4]
        ∧ (Message.encode (Message.new .Data (List.replicate 16 17) message_id
            [112, 105, 110, 103])).drop 39 = [112, 105, 110, 103]) := by
  constructor
  · intro m h
    obtain ⟨hmag, hc, _, hm, _, _, hlen, hlt⟩ := h
    refine ⟨by rw [encode_length m hc hm, hlen], ?_, encode_slice_cid m hc,
      encode_slice_mid m hc hm, ?_, encode_drop39 m hc hm⟩
    · rw [encode_cons]; rfl
    · rw [encode_drop35 m hc hm]
      exact List.take_left' (u32ToBeBytes_length _)
  · intro message_id hmid
    have hc : (Message.new .Data (List.replicate 16 17) message_id
        [112, 105, 110, 103]).connection_id.length = 16 := by simp [Message.new]
    have hm : (Message.new .Data (List.replicate 16 17) message_id
        [112, 105, 110, 103]).message_id.length = 16 := hmid
    refine ⟨?_, ?_, ?_⟩
    · rw [encode_length _ hc hm]
      simp [Message.new]
    · rw [encode_drop35 _ hc hm, List.take_left' (u32ToBeBytes_length _)]
      simp [Message.new, u32ToBeBytes]
    · rw [encode_drop39 _ hc hm]
      simp [Message.new]

theorem c7_encode_layout_witness :
    (Message.encode (Message.new .Data (List.replicate 16 17) (List.replicate 16 34)
        [112, 105, 110, 103])).length = 43
    ∧ ((Message.encode (Message.new .Data (List.replicate 16 17) (List.replicate 16 34)
        [112, 105, 110, 103])).drop 35).take 4 = [0, 0, 0, 4]
    ∧ (Message.encode (Message.new .Data (List.replicate 16 17) (List.replicate 16 34)
        [112, 105, 110, 103])).drop 39 = [112, 105, 110, 103] :=
  c7_encode_layout.2 (List.replicate 16 34) (by decide)

/-- C8: for every valid `InitializationMessage` (IPv4 by construction, ports
below 2^16, address bits below 2^32), decode of encode returns it unchanged in
all four fields; the encoding is exactly 12 bytes laid out as client_port,
proxy_port (big-endian), client_ip octets, proxy_host octets; and decode of any
buffer shorter than 12 bytes fails with the Incomplete (`UnexpectedEof`) error. -/
theorem c8_init_roundtrip :
    (∀ p : InitializationMessage, p.Valid →
      InitializationMessage.decode (InitializationMessage.encode p) = .ok p)
    ∧ (∀ p : InitializationMessage,
        (InitializationMessage.encode p).length = 12
        ∧ (InitializationMessage.encode p).take 2 = u16ToBeBytes p.client_port
        ∧ ((InitializationMessage.encode p).drop 2).take 2 = u16ToBeBytes p.proxy_port
        ∧ ((InitializationMessage.encode p).drop 4).take 4 = p.client_ip.octets
        ∧ (InitializationMessage.encode p).drop 8 = p.proxy_host.octets)
    ∧ (∀ msg : List Nat, msg.length < 12 →
        InitializationMessage.decode msg
          = .error ⟨.unexpectedEof, "Initial message is incorrect"⟩) := by
  refine ⟨fun p h => init_decode_encode_of_valid p h, fun p => ?_,
    fun msg h => init_decode_short msg h⟩
  have h0 := init_slice0 p
  rw [List.drop_zero] at h0
  exact ⟨init_encode_length p, h0, init_slice2 p, init_slice4 p, init_drop8 p⟩

theorem c8_init_roundtrip_witness :
    InitializationMessage.Valid ⟨⟨2130706433⟩, 8080, 9000, ⟨167772161⟩⟩
    ∧ InitializationMessage.decode (InitializationMessage.encode
        ⟨⟨2130706433⟩, 8080, 9000, ⟨167772161⟩⟩)
      = .ok ⟨⟨2130706433⟩, 8080, 9000, ⟨167772161⟩⟩
    ∧ InitializationMessage.decode (List.replicate 11 0)
      = .error ⟨.unexpectedEof, "Initial message is incorrect"⟩ :=
  ⟨by decide, c8_init_roundtrip.1 _ (by decide),
   c8_init_roundtrip.2.2 (List.replicate 11 0) (by decide)⟩

/-- C9: `InitializationMessage::new(addr, proxy_addr)` fails with the
`Unsupported` ("IPv6 is not supported") error exactly when at least one of the
two socket addresses is not IPv4; when both are IPv4 it succeeds, storing the
first address as client_ip/client_port and the second as proxy_host/proxy_port. -/
theorem c9_init_new (addr proxy_addr : SocketAddr) :
    (InitializationMessage.new addr proxy_addr
        = .error ⟨.unsupported, "IPv6 is not supported"⟩
      ↔ (addr.is_ipv4 = false ∨ proxy_addr.is_ipv4 = false))
    ∧ (∀ a b : Ipv4Addr, addr.ip = .V4 a → proxy_addr.ip = .V4 b →
        InitializationMessage.new addr proxy_addr
          = .ok ⟨a, addr.port, proxy_addr.port, b⟩) := by
  obtain ⟨ia, pa⟩ := addr
  obtain ⟨ib, pb⟩ := proxy_addr
  cases ia <;> cases ib <;>
    simp [InitializationMessage.new, SocketAddr.is_ipv4]

theorem c9_init_new_witness :
    InitializationMessage.new ⟨.V4 ⟨2130706433⟩, 8080⟩ ⟨.V4 ⟨167772161⟩, 9000⟩
      = .ok ⟨⟨2130706433⟩, 8080, 9000, ⟨167772161⟩⟩ :=
  (c9_init_new ⟨.V4 ⟨2130706433⟩, 8080⟩ ⟨.V4 ⟨167772161⟩, 9000⟩).2
    ⟨2130706433⟩ ⟨167772161⟩ rfl rfl

/-- C10: the identifier-parse branches of `Message::decode` are unreachable:
for every buffer of at least 39 bytes the two 16-byte slices at 3..19 and
19..35 always parse (`Uuid::from_slice` succeeds on any 16 bytes), and decode
never returns the identifier-parse error on any input. -/
theorem c10_uuid_unreachable (msg : List Nat) (h39 : 39 ≤ msg.length) :
    uuidFromSlice ((msg.drop 3).take 16) = some ((msg.drop 3).take 16)
    ∧ uuidFromSlice ((msg.drop 19).take 16) = some ((msg.drop 19).take 16)
    ∧ (∀ e : IoError, Message.decode msg = .error e → e.message ≠ "invalid uuid length") := by
  refine ⟨uuidFromSlice_of_length _ (slice16_length msg 3 (by omega)),
    uuidFromSlice_of_length _ (slice16_length msg 19 (by omega)), ?_⟩
  intro e hdec
  cases hv : decodeVersion (msg.getD 1 0) with
  | error e0 =>
    rw [decode_version_error msg e0 h39 hv] at hdec
    simp only [Except.error.injEq] at hdec
    rw [← hdec, decodeVersion_error_message _ _ hv]
    decide
  | ok ver =>
    cases ht : decodeType (msg.getD 2 0) with
    | error e1 =>
      rw [decode_type_error msg ver e1 h39 hv ht] at hdec
      simp only [Except.error.injEq] at hdec
      rw [← hdec, decodeType_error_message _ _ ht]
      decide
    | ok mt =>
      by_cases hpl : msg.length < 39 + declaredLength msg
      · rw [decode_payload_incomplete msg ver mt h39 hv ht hpl] at hdec
        simp only [Except.error.injEq] at hdec
        rw [← hdec]
        decide
      · rw [decode_ok msg ver mt h39 hv ht (by omega)] at hdec
        exact absurd hdec (by simp)

theorem c10_uuid_unreachable_witness :
    uuidFromSlice (((List.replicate 39 0 : List Nat).drop 3).take 16)
      = some (((List.replicate 39 0 : List Nat).drop 3).take 16)
    ∧ uuidFromSlice (((List.replicate 39 0 : List Nat).drop 19).take 16)
      = some (((List.replicate 39 0 : List Nat).drop 19).take 16)
    ∧ (∀ e : IoError, Message.decode (List.replicate 39 0) = .error e →
        e.message ≠ "invalid uuid length") :=
  c10_uuid_unreachable (List.replicate 39 0) (by decide)

end Reverprox
